import Mathlib

/-!
# Verification of the reconciliation loop of `external-lb` (src/main.go)

Shallow embedding of the poll/diff/dispatch/write-back loop in `main` of
`src/main.go`, together with theorems settling the claims about it.

Modelling conventions:
* Go `time.Time` / durations are modelled as `Nat` nanoseconds.  The Go gate
  `time.Since(lastUpdated).Minutes() >= forceUpdateInterval` is modelled as
  `now - lastUpdated ≥ forceUpdateInterval * minuteNs`; for nanosecond counts
  far below 2^53 the float division in `Minutes()` decides exactly this
  comparison.
* Go maps (`map[string]model.LBConfig`) are modelled as association lists;
  `reflect.DeepEqual` on them is modelled as structural equality of the
  representation.
* The collaborator calls made during one loop iteration
  (`m.GetVersion`, `m.GetMetadataLBConfigs`, `UpdateProviderLBConfigs`,
  `c.UpdateServiceFqdn`) are inputs of / outputs recorded by the tick
  function: a `none` result models a Go `err != nil` return.
* A Go runtime panic (out-of-range slice index) is modelled by the
  `panicked` flag: the iteration stops at that point, nothing after the
  panic executes.
-/

/-- Modelled from the spec: `model.TargetPool` (package `model` is not under
`src/`); §3 of the spec and the accesses in `main.go` give it a composite
`Name` of the form `service_stack_environment`.  Only the field read by
`main.go` is modelled. -/
structure TargetPool where
  Name : String
deriving DecidableEq

/-- Modelled from the spec: `model.LBFrontend`; `main.go` reads its
`TargetPools` sequence. -/
structure Frontend where
  TargetPools : List TargetPool
deriving DecidableEq

/-- Modelled from the spec: `model.LBConfig`; `main.go` reads its
`Frontends` sequence. -/
structure LBConfig where
  Frontends : List Frontend
deriving DecidableEq

/-- A desired-state snapshot, `map[string]model.LBConfig` in Go, as an
association list from LB identity to configuration. -/
abbrev Snapshot := List (String × LBConfig)

/-- A reconciliation outcome (`updatedFqdn` in `main.go`): FQDN to the
LBConfig that produced it. -/
abbrev Outcome := List (String × LBConfig)

/-- One `c.UpdateServiceFqdn(parts[0], parts[1], fqdn)` call:
(service, stack, fqdn). -/
abbrev RegistryCall := String × String × String

/-- Go `strings.Split(s, "_")` on the character list: splits around every
occurrence of the separator; the empty input yields `[[]]` (one empty
segment), matching `strings.Split("", "_") = [""]`. -/
def splitParts : List Char → List (List Char)
  | [] => [[]]
  | c :: rest =>
    match splitParts rest with
    | [] => [[]]
    | p :: ps => if c = '_' then [] :: p :: ps else (c :: p) :: ps

/-- The call `strings.Split(tpName, "_")` of `main.go` line 139. -/
def goSplitUnderscore (s : String) : List String :=
  (splitParts s.toList).map fun cs => String.mk cs

/-- The body of the innermost write-back loop (lines 139-143 of
`main.go`): split the target-pool name on `_` and call
`c.UpdateServiceFqdn(parts[0], parts[1], fqdn)`.  When the split yields
fewer than two segments the Go code indexes `parts[1]` out of range and
panics: modelled by `none`. -/
def poolCall (fqdn : String) (tp : TargetPool) : Option RegistryCall :=
  match goSplitUnderscore tp.Name with
  | p0 :: p1 :: _ => some (p0, p1, fqdn)
  | _ => none

/-- Write-back over the target pools of one frontend: the registry calls
made, and whether a panic occurred (a panic stops the iteration; the
panicking pool itself makes no call). -/
def writeBackPools (fqdn : String) : List TargetPool → List RegistryCall × Bool
  | [] => ([], false)
  | tp :: rest =>
    match poolCall fqdn tp with
    | none => ([], true)
    | some call =>
      let r := writeBackPools fqdn rest
      (call :: r.1, r.2)

/-- Write-back over the frontends of one outcome entry. -/
def writeBackFrontends (fqdn : String) : List Frontend → List RegistryCall × Bool
  | [] => ([], false)
  | fe :: rest =>
    let r := writeBackPools fqdn fe.TargetPools
    if r.2 then (r.1, true)
    else
      let r2 := writeBackFrontends fqdn rest
      (r.1 ++ r2.1, r2.2)

/-- The write-back loop of lines 135-146 of `main.go`: every
(fqdn, config) entry of the outcome, every frontend, every target pool. -/
def writeBackOutcome : Outcome → List RegistryCall × Bool
  | [] => ([], false)
  | (fqdn, config) :: rest =>
    let r := writeBackFrontends fqdn config.Frontends
    if r.2 then (r.1, true)
    else
      let r2 := writeBackOutcome rest
      (r.1 ++ r2.1, r2.2)

/-- The registry calls the write-back loop owes the outcome: one per
target pool whose name splits into at least two segments, in iteration
order. -/
def allCalls (o : Outcome) : List RegistryCall :=
  (o.map fun e =>
    (e.2.Frontends.map fun fe => fe.TargetPools.filterMap (poolCall e.1)).flatten).flatten

/-- Constant `forceUpdateInterval = 1` (minutes), line 19 of `main.go`. -/
def forceUpdateInterval : Nat := 1

/-- One minute in nanoseconds (`time.Duration` unit). -/
def minuteNs : Nat := 60000000000

/-- The mutable state the loop threads between ticks: `version` (line 90),
`lastUpdated` (line 91) and the package-level cache
`metadataLBConfigsCached` (line 32). -/
structure LoopState where
  version : String
  lastUpdated : Nat
  metadataLBConfigsCached : Snapshot
deriving DecidableEq

/-- The environment of one tick: the current clock and what each
collaborator call would return this tick (`none` models `err != nil`;
the dispatch result pairs `updatedFqdn` with the error flag, since
`UpdateProviderLBConfigs` may return a partial outcome alongside an
error). -/
structure TickInput where
  now : Nat
  getVersion : Option String
  getMetadataLBConfigs : Option Snapshot
  updateProviderLBConfigs : Outcome × Bool
deriving DecidableEq

/-- Everything one tick did: the resulting state, whether the snapshot
fetch was attempted, the snapshots dispatched to the provider, the
registry calls made, whether the tick panicked, and whether the pass was
a forced update. -/
structure TickResult where
  state : LoopState
  fetchedSnapshot : Bool
  providerCalls : List Snapshot
  registryCalls : List RegistryCall
  panicked : Bool
  forced : Bool
deriving DecidableEq

/-- Lines 113-153 of `main.go`: the `update || updateForced` body.  Fetch
the snapshot (abandon the tick on failure), gate on
`!reflect.DeepEqual(metadataLBConfigs, metadataLBConfigsCached) || updateForced`,
dispatch to the provider (its error is only logged), run write-back, then
set the cache and `lastUpdated`. -/
def runUpdate (s : LoopState) (inp : TickInput) (updateForced : Bool) : TickResult :=
  match inp.getMetadataLBConfigs with
  | none => ⟨s, true, [], [], false, updateForced⟩
  | some metadataLBConfigs =>
    if metadataLBConfigs ≠ s.metadataLBConfigsCached ∨ updateForced = true then
      let outcome := inp.updateProviderLBConfigs.1
      let wb := writeBackOutcome outcome
      if wb.2 then
        ⟨s, true, [metadataLBConfigs], wb.1, true, updateForced⟩
      else
        ⟨⟨s.version, inp.now, metadataLBConfigs⟩, true, [metadataLBConfigs], wb.1,
          false, updateForced⟩
    else
      ⟨s, true, [], [], false, updateForced⟩

/-- One iteration of the `for range ticker.C` loop (lines 96-154 of
`main.go`): fetch the version (on failure only log), on change record it
and set `update`, otherwise check the force-update interval; then run the
update body when `update || updateForced`. -/
def tick (s : LoopState) (inp : TickInput) : TickResult :=
  match inp.getVersion with
  | none => ⟨s, false, [], [], false, false⟩
  | some newVersion =>
    if s.version ≠ newVersion then
      runUpdate { s with version := newVersion } inp false
    else if inp.now - s.lastUpdated ≥ forceUpdateInterval * minuteNs then
      runUpdate s inp true
    else
      ⟨s, false, [], [], false, false⟩

/-- The state at entry of the loop (lines 90-91, 32): sentinel version
`"init"`, `lastUpdated` the startup instant, empty cache. -/
def initialState (t0 : Nat) : LoopState := ⟨"init", t0, []⟩

/-- Run a sequence of ticks, collecting every snapshot dispatched to the
provider; a panic stops the run (the Go process crashes). -/
def runTicks (s : LoopState) : List TickInput → LoopState × List Snapshot
  | [] => (s, [])
  | inp :: rest =>
    let r := tick s inp
    if r.panicked then (r.state, r.providerCalls)
    else
      let tl := runTicks r.state rest
      (tl.1, r.providerCalls ++ tl.2)

/-- A perpetually flapping run: on every tick the version fetch succeeds
with a version different from the one currently recorded, and the snapshot
fetch returns exactly the current cache content. -/
def flapRun (s : LoopState) : List TickInput → Bool
  | [] => true
  | inp :: rest =>
    match inp.getVersion with
    | none => false
    | some nv =>
      decide (nv ≠ s.version) &&
        decide (inp.getMetadataLBConfigs = some s.metadataLBConfigsCached) &&
        flapRun (tick s inp).state rest

/-! ## Branch characterizations of one tick -/

theorem tick_getVersion_none (s : LoopState) (inp : TickInput)
    (h : inp.getVersion = none) : tick s inp = ⟨s, false, [], [], false, false⟩ := by
  simp [tick, h]

theorem tick_version_changed (s : LoopState) (inp : TickInput) (nv : String)
    (hv : inp.getVersion = some nv) (hne : s.version ≠ nv) :
    tick s inp = runUpdate { s with version := nv } inp false := by
  simp [tick, hv, hne]

theorem tick_version_same_not_elapsed (s : LoopState) (inp : TickInput)
    (hv : inp.getVersion = some s.version)
    (hlt : inp.now - s.lastUpdated < forceUpdateInterval * minuteNs) :
    tick s inp = ⟨s, false, [], [], false, false⟩ := by
  simp [tick, hv, Nat.not_le.mpr hlt]

theorem tick_version_same_elapsed (s : LoopState) (inp : TickInput)
    (hv : inp.getVersion = some s.version)
    (hge : inp.now - s.lastUpdated ≥ forceUpdateInterval * minuteNs) :
    tick s inp = runUpdate s inp true := by
  simp [tick, hv, hge]

theorem runUpdate_fetch_fail (s : LoopState) (inp : TickInput) (f : Bool)
    (h : inp.getMetadataLBConfigs = none) :
    runUpdate s inp f = ⟨s, true, [], [], false, f⟩ := by
  simp [runUpdate, h]

theorem runUpdate_equal_not_forced (s : LoopState) (inp : TickInput) (snap : Snapshot)
    (h : inp.getMetadataLBConfigs = some snap)
    (heq : snap = s.metadataLBConfigsCached) :
    runUpdate s inp false = ⟨s, true, [], [], false, false⟩ := by
  simp [runUpdate, h, heq]

theorem runUpdate_dispatch_no_panic (s : LoopState) (inp : TickInput) (f : Bool)
    (snap : Snapshot) (h : inp.getMetadataLBConfigs = some snap)
    (hgate : snap ≠ s.metadataLBConfigsCached ∨ f = true)
    (hnp : (writeBackOutcome inp.updateProviderLBConfigs.1).2 = false) :
    runUpdate s inp f =
      ⟨⟨s.version, inp.now, snap⟩, true, [snap],
        (writeBackOutcome inp.updateProviderLBConfigs.1).1, false, f⟩ := by
  rw [runUpdate, h]
  simp only [if_pos hgate, hnp]
  simp

theorem runUpdate_dispatch_panic (s : LoopState) (inp : TickInput) (f : Bool)
    (snap : Snapshot) (h : inp.getMetadataLBConfigs = some snap)
    (hgate : snap ≠ s.metadataLBConfigsCached ∨ f = true)
    (hp : (writeBackOutcome inp.updateProviderLBConfigs.1).2 = true) :
    runUpdate s inp f =
      ⟨s, true, [snap], (writeBackOutcome inp.updateProviderLBConfigs.1).1, true, f⟩ := by
  rw [runUpdate, h]
  simp only [if_pos hgate, hp]
  simp

/-! ## Write-back lemmas -/

theorem writeBackPools_no_panic (fqdn : String) (tps : List TargetPool)
    (h : (writeBackPools fqdn tps).2 = false) :
    (writeBackPools fqdn tps).1 = tps.filterMap (poolCall fqdn) := by
  induction tps with
  | nil => simp [writeBackPools]
  | cons tp rest ih =>
    cases hc : poolCall fqdn tp with
    | none => simp [writeBackPools, hc] at h
    | some call =>
      simp only [writeBackPools, hc] at h ⊢
      simp [List.filterMap_cons, hc, ih h]

theorem writeBackFrontends_no_panic (fqdn : String) (fes : List Frontend)
    (h : (writeBackFrontends fqdn fes).2 = false) :
    (writeBackFrontends fqdn fes).1 =
      (fes.map fun fe => fe.TargetPools.filterMap (poolCall fqdn)).flatten := by
  induction fes with
  | nil => simp [writeBackFrontends]
  | cons fe rest ih =>
    cases hp : (writeBackPools fqdn fe.TargetPools).2 with
    | true => simp [writeBackFrontends, hp] at h
    | false =>
      simp only [writeBackFrontends, hp] at h ⊢
      simp only [Bool.false_eq_true, if_false] at h ⊢
      rw [List.map_cons, List.flatten_cons, writeBackPools_no_panic fqdn _ hp, ih h]

theorem writeBackOutcome_no_panic (o : Outcome)
    (h : (writeBackOutcome o).2 = false) :
    (writeBackOutcome o).1 = allCalls o := by
  induction o with
  | nil => simp [writeBackOutcome, allCalls]
  | cons e rest ih =>
    obtain ⟨fqdn, config⟩ := e
    cases hf : (writeBackFrontends fqdn config.Frontends).2 with
    | true => simp [writeBackOutcome, hf] at h
    | false =>
      simp only [writeBackOutcome, hf] at h ⊢
      simp only [Bool.false_eq_true, if_false] at h ⊢
      rw [allCalls, List.map_cons, List.flatten_cons,
        writeBackFrontends_no_panic fqdn _ hf, ih h]
      rfl

/-! ## State-evolution lemmas -/

theorem runUpdate_forced (s : LoopState) (inp : TickInput) (f : Bool) :
    (runUpdate s inp f).forced = f := by
  unfold runUpdate
  cases h : inp.getMetadataLBConfigs with
  | none => rfl
  | some snap =>
    by_cases hg : snap ≠ s.metadataLBConfigsCached ∨ f = true
    · simp only [if_pos hg]
      cases hp : (writeBackOutcome inp.updateProviderLBConfigs.1).2 <;> simp [hp]
    · simp [if_neg hg]

theorem runUpdate_version (s : LoopState) (inp : TickInput) (f : Bool) :
    (runUpdate s inp f).state.version = s.version := by
  unfold runUpdate
  cases h : inp.getMetadataLBConfigs with
  | none => rfl
  | some snap =>
    by_cases hg : snap ≠ s.metadataLBConfigsCached ∨ f = true
    · simp only [if_pos hg]
      cases hp : (writeBackOutcome inp.updateProviderLBConfigs.1).2 <;> simp [hp]
    · simp [if_neg hg]

theorem runUpdate_lastUpdated (s : LoopState) (inp : TickInput) (f : Bool) :
    (runUpdate s inp f).state.lastUpdated =
      if (runUpdate s inp f).providerCalls ≠ [] ∧ (runUpdate s inp f).panicked = false
      then inp.now else s.lastUpdated := by
  unfold runUpdate
  cases h : inp.getMetadataLBConfigs with
  | none => simp
  | some snap =>
    by_cases hg : snap ≠ s.metadataLBConfigsCached ∨ f = true
    · simp only [if_pos hg]
      cases hp : (writeBackOutcome inp.updateProviderLBConfigs.1).2 <;> simp [hp]
    · simp [if_neg hg]

theorem tick_lastUpdated_eq (s : LoopState) (inp : TickInput) :
    (tick s inp).state.lastUpdated =
      if (tick s inp).providerCalls ≠ [] ∧ (tick s inp).panicked = false
      then inp.now else s.lastUpdated := by
  unfold tick
  cases hv : inp.getVersion with
  | none => simp
  | some nv =>
    by_cases hne : s.version ≠ nv
    · simp only [if_pos hne]
      exact runUpdate_lastUpdated { s with version := nv } inp false
    · by_cases hge : inp.now - s.lastUpdated ≥ forceUpdateInterval * minuteNs
      · simp only [if_neg hne, if_pos hge]
        exact runUpdate_lastUpdated s inp true
      · simp [if_neg hne, if_neg hge]

theorem tick_forced_true (s : LoopState) (inp : TickInput)
    (h : (tick s inp).forced = true) : inp.getVersion = some s.version := by
  unfold tick at h
  cases hv : inp.getVersion with
  | none => rw [hv] at h; simp at h
  | some nv =>
    rw [hv] at h
    dsimp only at h
    by_cases hne : s.version ≠ nv
    · rw [if_pos hne, runUpdate_forced] at h
      simp at h
    · push_neg at hne
      rw [hne]

/-! ## Claims -/

/-- Claim C1 (code bug): the claim says a target-pool name that does not
split into exactly three segments is treated as a local error (reported
and skipped, no panic) and the Registry Writer is still called for every
other well-formed entry.  The code has no such check: on the outcome
below, the pool named `badname` (one segment) makes the write-back index
`parts[1]` out of range and panic, so the pass aborts and the later
well-formed pool `svcB_stackX_envY` is never written back. -/
theorem write_back_panics_on_malformed_name :
    writeBackOutcome
        [("lb.example.com",
          ⟨[⟨[⟨"svcA_stackX_envY"⟩, ⟨"badname"⟩, ⟨"svcB_stackX_envY"⟩]⟩]⟩)] =
      ([("svcA", "stackX", "lb.example.com")], true) := by decide

/-- Claim C2: on a tick where the version changed, the snapshot fetch
succeeds with content deeply equal to the cache, and the force-update
interval has not elapsed, the provider is not invoked, no registry call
is made, and the cache is unchanged. -/
theorem version_change_content_equal_no_dispatch (s : LoopState) (inp : TickInput)
    (nv : String) (snap : Snapshot)
    (hv : inp.getVersion = some nv) (hne : s.version ≠ nv)
    (hs : inp.getMetadataLBConfigs = some snap)
    (heq : snap = s.metadataLBConfigsCached)
    (_hforce : inp.now - s.lastUpdated < forceUpdateInterval * minuteNs) :
    (tick s inp).providerCalls = [] ∧ (tick s inp).registryCalls = [] ∧
      (tick s inp).state.metadataLBConfigsCached = s.metadataLBConfigsCached := by
  rw [tick_version_changed s inp nv hv hne,
    runUpdate_equal_not_forced { s with version := nv } inp snap hs heq]
  exact ⟨rfl, rfl, rfl⟩

/-- Witness for C2 at a concrete tick. -/
theorem version_change_content_equal_no_dispatch_example :
    (tick ⟨"v1", 0, []⟩ ⟨1000, some "v2", some [], ([], false)⟩).providerCalls = [] ∧
      (tick ⟨"v1", 0, []⟩ ⟨1000, some "v2", some [], ([], false)⟩).registryCalls = [] ∧
      (tick ⟨"v1", 0, []⟩
          ⟨1000, some "v2", some [], ([], false)⟩).state.metadataLBConfigsCached =
        LoopState.metadataLBConfigsCached ⟨"v1", 0, []⟩ :=
  version_change_content_equal_no_dispatch ⟨"v1", 0, []⟩
    ⟨1000, some "v2", some [], ([], false)⟩ "v2" [] rfl (by decide) rfl rfl (by decide)

/-- Claim C3: on a tick where the version is unchanged and the
force-update interval has elapsed, the snapshot is fetched, and on fetch
success the provider is invoked with the fetched snapshot, even when it
is deeply equal to the cache. -/
theorem forced_update_dispatches (s : LoopState) (inp : TickInput) (snap : Snapshot)
    (hv : inp.getVersion = some s.version)
    (hel : inp.now - s.lastUpdated ≥ forceUpdateInterval * minuteNs)
    (hs : inp.getMetadataLBConfigs = some snap) :
    (tick s inp).fetchedSnapshot = true ∧ (tick s inp).providerCalls = [snap] := by
  rw [tick_version_same_elapsed s inp hv hel]
  cases hp : (writeBackOutcome inp.updateProviderLBConfigs.1).2 with
  | false =>
    rw [runUpdate_dispatch_no_panic s inp true snap hs (Or.inr rfl) hp]
    exact ⟨rfl, rfl⟩
  | true =>
    rw [runUpdate_dispatch_panic s inp true snap hs (Or.inr rfl) hp]
    exact ⟨rfl, rfl⟩

/-- Witness for C3: forced pass with a snapshot identical to the cache. -/
theorem forced_update_dispatches_example :
    (tick ⟨"v1", 0, []⟩ ⟨120000000000, some "v1", some [], ([], false)⟩).fetchedSnapshot =
        true ∧
      (tick ⟨"v1", 0, []⟩ ⟨120000000000, some "v1", some [], ([], false)⟩).providerCalls =
        [[]] :=
  forced_update_dispatches ⟨"v1", 0, []⟩ ⟨120000000000, some "v1", some [], ([], false)⟩
    [] rfl (by decide) rfl

/-- Counterexample to claim C4 as stated: a dispatch that returns an
error together with a partial outcome whose only target pool is named
`bad` (fewer than two segments).  The write-back loop panics on it, so
not every entry of the outcome is written back and the cache is NOT
replaced with the fetched snapshot (it stays `[]` although the snapshot
was `[("x", ⟨[]⟩)]`). -/
theorem partial_outcome_write_back_cex :
    (tick ⟨"v1", 0, []⟩
        ⟨50, some "v2", some [("x", ⟨[]⟩)], ([("lb", ⟨[⟨[⟨"bad"⟩]⟩]⟩)], true)⟩).providerCalls =
        [[("x", ⟨[]⟩)]] ∧
      (tick ⟨"v1", 0, []⟩
          ⟨50, some "v2", some [("x", ⟨[]⟩)], ([("lb", ⟨[⟨[⟨"bad"⟩]⟩]⟩)], true)⟩).panicked =
        true ∧
      (tick ⟨"v1", 0, []⟩
          ⟨50, some "v2", some [("x", ⟨[]⟩)],
            ([("lb", ⟨[⟨[⟨"bad"⟩]⟩]⟩)], true)⟩).state.metadataLBConfigsCached =
        [] := by decide

/-- Claim C4 as amended: when the dispatch of a changed snapshot returns
an error together with a (possibly partial) outcome, and every
target-pool name in that outcome splits into at least two segments (so
the write-back loop does not panic, see C1), then every entry of the
outcome is written back — the registry calls are exactly `allCalls` of
the outcome — and the cache is still replaced with the fetched
snapshot. -/
theorem partial_outcome_still_written_back (s : LoopState) (inp : TickInput)
    (nv : String) (snap : Snapshot) (outcome : Outcome)
    (hv : inp.getVersion = some nv) (hne : s.version ≠ nv)
    (hs : inp.getMetadataLBConfigs = some snap)
    (hd : inp.updateProviderLBConfigs = (outcome, true))
    (hgate : snap ≠ s.metadataLBConfigsCached)
    (hnp : (writeBackOutcome outcome).2 = false) :
    (tick s inp).registryCalls = allCalls outcome ∧
      (tick s inp).state.metadataLBConfigsCached = snap := by
  rw [tick_version_changed s inp nv hv hne,
    runUpdate_dispatch_no_panic { s with version := nv } inp false snap hs
      (Or.inl hgate) (by rw [hd]; exact hnp)]
  refine ⟨?_, rfl⟩
  show (writeBackOutcome inp.updateProviderLBConfigs.1).1 = allCalls outcome
  rw [hd]
  exact writeBackOutcome_no_panic outcome hnp

/-- Witness for amended C4 at a concrete erroring dispatch. -/
theorem partial_outcome_still_written_back_example :
    (tick ⟨"v1", 0, []⟩
        ⟨5, some "v2", some [("lb1", ⟨[]⟩)],
          ([("lb.example.com", ⟨[⟨[⟨"svcA_stackX_envY"⟩]⟩]⟩)], true)⟩).registryCalls =
        allCalls [("lb.example.com", ⟨[⟨[⟨"svcA_stackX_envY"⟩]⟩]⟩)] ∧
      (tick ⟨"v1", 0, []⟩
          ⟨5, some "v2", some [("lb1", ⟨[]⟩)],
            ([("lb.example.com", ⟨[⟨[⟨"svcA_stackX_envY"⟩]⟩]⟩)],
              true)⟩).state.metadataLBConfigsCached =
        [("lb1", ⟨[]⟩)] :=
  partial_outcome_still_written_back ⟨"v1", 0, []⟩
    ⟨5, some "v2", some [("lb1", ⟨[]⟩)],
      ([("lb.example.com", ⟨[⟨[⟨"svcA_stackX_envY"⟩]⟩]⟩)], true)⟩
    "v2" [("lb1", ⟨[]⟩)] [("lb.example.com", ⟨[⟨[⟨"svcA_stackX_envY"⟩]⟩]⟩)]
    rfl (by decide) rfl rfl (by decide) (by decide)

/-- Counterexample to claim C5 as stated: a pass whose provider dispatch
returns an error (error flag `true`, outcome empty) nevertheless advances
`lastUpdated` from `0` to the tick's clock `77`. -/
theorem timer_advances_on_failed_dispatch_cex :
    (tick ⟨"v1", 0, []⟩
        ⟨77, some "v2", some [("lb1", ⟨[]⟩)], ([], true)⟩).providerCalls =
        [[("lb1", ⟨[]⟩)]] ∧
      (tick ⟨"v1", 0, []⟩
          ⟨77, some "v2", some [("lb1", ⟨[]⟩)], ([], true)⟩).state.lastUpdated =
        77 := by decide

/-- Claim C5 as amended: `lastUpdated` is advanced to the tick's clock
exactly when the pass reaches the dispatch step and completes its
write-back loop without panicking — regardless of whether the dispatch
returned an error — and is left unchanged by every other tick. -/
theorem timer_reset_iff_dispatch_completed (s : LoopState) (inp : TickInput) :
    (tick s inp).state.lastUpdated =
      if (tick s inp).providerCalls ≠ [] ∧ (tick s inp).panicked = false
      then inp.now else s.lastUpdated :=
  tick_lastUpdated_eq s inp

/-- Counterexample to claim C6 as stated: a tick whose fetched version
`"v2"` differs from the recorded `"v1"` records the new version, yet —
because the fetched snapshot equals the cache, so the pass never reaches
the finalize step — leaves the force-update timer `lastUpdated` at `5`
instead of resetting it to the tick's clock `99`. -/
theorem version_change_no_timer_reset_cex :
    (tick ⟨"v1", 5, []⟩ ⟨99, some "v2", some [], ([], false)⟩).state.version = "v2" ∧
      (tick ⟨"v1", 5, []⟩ ⟨99, some "v2", some [], ([], false)⟩).state.lastUpdated =
        5 := by decide

/-- Claim C6 as amended: a tick whose fetched version differs from the
last-seen one records the new version immediately, but resets the
force-update timer only if the pass goes on to dispatch and completes
its write-back (same finalize condition as C5). -/
theorem version_recorded_timer_conditional (s : LoopState) (inp : TickInput)
    (nv : String) (hv : inp.getVersion = some nv) (hne : s.version ≠ nv) :
    (tick s inp).state.version = nv ∧
      (tick s inp).state.lastUpdated =
        (if (tick s inp).providerCalls ≠ [] ∧ (tick s inp).panicked = false
         then inp.now else s.lastUpdated) := by
  refine ⟨?_, tick_lastUpdated_eq s inp⟩
  rw [tick_version_changed s inp nv hv hne]
  exact runUpdate_version { s with version := nv } inp false

/-- Witness for amended C6 at a concrete version-change tick. -/
theorem version_recorded_timer_conditional_example :
    (tick ⟨"v1", 5, []⟩ ⟨99, some "v2", some [], ([], false)⟩).state.version = "v2" ∧
      (tick ⟨"v1", 5, []⟩ ⟨99, some "v2", some [], ([], false)⟩).state.lastUpdated =
        (if (tick ⟨"v1", 5, []⟩ ⟨99, some "v2", some [], ([], false)⟩).providerCalls ≠ [] ∧
            (tick ⟨"v1", 5, []⟩ ⟨99, some "v2", some [], ([], false)⟩).panicked = false
         then TickInput.now ⟨99, some "v2", some [], ([], false)⟩
         else LoopState.lastUpdated ⟨"v1", 5, []⟩) :=
  version_recorded_timer_conditional ⟨"v1", 5, []⟩ ⟨99, some "v2", some [], ([], false)⟩
    "v2" rfl (by decide)

/-- Claim C7: a tick where the version fetch succeeds unchanged and the
force-update interval has not elapsed performs no snapshot fetch, no
provider call and no registry call, and leaves the whole loop state
(cache, version marker, timestamp) unchanged. -/
theorem noop_tick_frame (s : LoopState) (inp : TickInput)
    (hv : inp.getVersion = some s.version)
    (hf : inp.now - s.lastUpdated < forceUpdateInterval * minuteNs) :
    (tick s inp).fetchedSnapshot = false ∧ (tick s inp).providerCalls = [] ∧
      (tick s inp).registryCalls = [] ∧ (tick s inp).state = s := by
  rw [tick_version_same_not_elapsed s inp hv hf]
  exact ⟨rfl, rfl, rfl, rfl⟩

/-- Witness for C7 at a concrete quiescent tick. -/
theorem noop_tick_frame_example :
    (tick ⟨"v1", 3, []⟩ ⟨50, some "v1", some [], ([], false)⟩).fetchedSnapshot = false ∧
      (tick ⟨"v1", 3, []⟩ ⟨50, some "v1", some [], ([], false)⟩).providerCalls = [] ∧
      (tick ⟨"v1", 3, []⟩ ⟨50, some "v1", some [], ([], false)⟩).registryCalls = [] ∧
      (tick ⟨"v1", 3, []⟩ ⟨50, some "v1", some [], ([], false)⟩).state = ⟨"v1", 3, []⟩ :=
  noop_tick_frame ⟨"v1", 3, []⟩ ⟨50, some "v1", some [], ([], false)⟩ rfl (by decide)

/-- Claim C8: when the snapshot fetch fails, the tick makes no provider
call and no registry call and leaves cache and timestamp unchanged,
while the version marker stands at the newly fetched version (advanced
when it had changed, unchanged otherwise). -/
theorem snapshot_fetch_failure_abandons_tick (s : LoopState) (inp : TickInput)
    (nv : String) (hv : inp.getVersion = some nv)
    (hs : inp.getMetadataLBConfigs = none) :
    (tick s inp).providerCalls = [] ∧ (tick s inp).registryCalls = [] ∧
      (tick s inp).state.metadataLBConfigsCached = s.metadataLBConfigsCached ∧
      (tick s inp).state.lastUpdated = s.lastUpdated ∧
      (tick s inp).state.version = nv := by
  by_cases hne : s.version ≠ nv
  · rw [tick_version_changed s inp nv hv hne,
      runUpdate_fetch_fail { s with version := nv } inp false hs]
    exact ⟨rfl, rfl, rfl, rfl, rfl⟩
  · push_neg at hne
    by_cases hge : inp.now - s.lastUpdated ≥ forceUpdateInterval * minuteNs
    · rw [tick_version_same_elapsed s inp (by rw [hv, hne]) hge,
        runUpdate_fetch_fail s inp true hs]
      exact ⟨rfl, rfl, rfl, rfl, hne⟩
    · rw [tick_version_same_not_elapsed s inp (by rw [hv, hne]) (Nat.not_le.mp hge)]
      exact ⟨rfl, rfl, rfl, rfl, hne⟩

/-- Witness for C8 at a concrete failing snapshot fetch. -/
theorem snapshot_fetch_failure_abandons_tick_example :
    (tick ⟨"v1", 3, []⟩ ⟨50, some "v2", none, ([], false)⟩).providerCalls = [] ∧
      (tick ⟨"v1", 3, []⟩ ⟨50, some "v2", none, ([], false)⟩).registryCalls = [] ∧
      (tick ⟨"v1", 3, []⟩
          ⟨50, some "v2", none, ([], false)⟩).state.metadataLBConfigsCached =
        LoopState.metadataLBConfigsCached ⟨"v1", 3, []⟩ ∧
      (tick ⟨"v1", 3, []⟩ ⟨50, some "v2", none, ([], false)⟩).state.lastUpdated =
        LoopState.lastUpdated ⟨"v1", 3, []⟩ ∧
      (tick ⟨"v1", 3, []⟩ ⟨50, some "v2", none, ([], false)⟩).state.version = "v2" :=
  snapshot_fetch_failure_abandons_tick ⟨"v1", 3, []⟩ ⟨50, some "v2", none, ([], false)⟩
    "v2" rfl rfl

/-- Counterexample to claim C9 as stated: on the first tick after start
both fetches succeed (version `"v1"`, snapshot the empty mapping), yet
the provider is not invoked, because the empty snapshot is deeply equal
to the freshly initialized empty cache. -/
theorem first_tick_empty_snapshot_cex :
    (tick (initialState 0) ⟨10, some "v1", some [], ([], false)⟩).fetchedSnapshot =
        true ∧
      (tick (initialState 0) ⟨10, some "v1", some [], ([], false)⟩).providerCalls =
        [] := by decide

/-- Claim C9 as amended: on the first tick after start, if the version
fetch succeeds with a version different from the startup sentinel
`"init"` and the snapshot fetch succeeds with a snapshot that is not the
empty mapping (hence not deeply equal to the initial empty cache), the
pass reconciles: the provider is invoked with the fetched snapshot. -/
theorem first_tick_reconciles (t0 : Nat) (inp : TickInput) (nv : String)
    (snap : Snapshot) (hv : inp.getVersion = some nv) (hnv : nv ≠ "init")
    (hs : inp.getMetadataLBConfigs = some snap) (hne : snap ≠ []) :
    (tick (initialState t0) inp).providerCalls = [snap] := by
  have hne' : (initialState t0).version ≠ nv := fun h => hnv (by simpa [initialState] using h.symm)
  rw [tick_version_changed (initialState t0) inp nv hv hne']
  have hgate : snap ≠
      LoopState.metadataLBConfigsCached { initialState t0 with version := nv } := by
    simpa [initialState] using hne
  cases hp : (writeBackOutcome inp.updateProviderLBConfigs.1).2 with
  | false =>
    rw [runUpdate_dispatch_no_panic _ inp false snap hs (Or.inl hgate) hp]
  | true =>
    rw [runUpdate_dispatch_panic _ inp false snap hs (Or.inl hgate) hp]

/-- Witness for amended C9 at a concrete first tick. -/
theorem first_tick_reconciles_example :
    (tick (initialState 0)
        ⟨10, some "v1", some [("lb1", ⟨[]⟩)], ([], false)⟩).providerCalls =
      [[("lb1", ⟨[]⟩)]] :=
  first_tick_reconciles 0 ⟨10, some "v1", some [("lb1", ⟨[]⟩)], ([], false)⟩
    "v1" [("lb1", ⟨[]⟩)] rfl (by decide) rfl (by decide)

/-- A flapping run never dispatches: each tick takes the version-changed
branch, fetches a snapshot equal to the cache, and skips dispatch. -/
theorem runTicks_flapping (inputs : List TickInput) :
    ∀ s : LoopState, flapRun s inputs = true → (runTicks s inputs).2 = [] := by
  induction inputs with
  | nil => intro s _; rfl
  | cons inp rest ih =>
    intro s h
    unfold flapRun at h
    cases hv : inp.getVersion with
    | none => rw [hv] at h; exact absurd h (by simp)
    | some nv =>
      rw [hv] at h
      dsimp only at h
      simp only [Bool.and_eq_true, decide_eq_true_eq] at h
      obtain ⟨⟨hne, hcfg⟩, hrest⟩ := h
      have htick : tick s inp =
          ⟨{ s with version := nv }, true, [], [], false, false⟩ := by
        rw [tick_version_changed s inp nv hv (Ne.symm hne),
          runUpdate_equal_not_forced { s with version := nv } inp _ hcfg rfl]
      rw [htick] at hrest
      unfold runTicks
      rw [htick]
      simp only [Bool.false_eq_true, if_false, List.nil_append]
      exact ih _ hrest

/-- Claim C10: a forced update can only happen on a tick whose version
fetch succeeded with the version unchanged; consequently, on a run in
which every tick sees a changed version while the snapshot content stays
equal to the cache, the provider is never invoked, however much time
passes. -/
theorem flapping_starves_forced_updates (s : LoopState) (inputs : List TickInput)
    (h : flapRun s inputs = true) :
    (∀ s' inp', (tick s' inp').forced = true → inp'.getVersion = some s'.version) ∧
      (runTicks s inputs).2 = [] :=
  ⟨fun s' inp' h' => tick_forced_true s' inp' h', runTicks_flapping inputs s h⟩

/-- Witness for C10: two flapping ticks, the second a full ten minutes
after the last reconciliation, still dispatch nothing. -/
theorem flapping_starves_forced_updates_example :
    (runTicks ⟨"v1", 0, []⟩
        [⟨10, some "v2", some [], ([], false)⟩,
          ⟨600000000000, some "v3", some [], ([], false)⟩]).2 = [] :=
  (flapping_starves_forced_updates ⟨"v1", 0, []⟩
    [⟨10, some "v2", some [], ([], false)⟩,
      ⟨600000000000, some "v3", some [], ([], false)⟩] (by decide)).2
